import Mathlib

/-!
# trivoodge: two triangles with GLFW, GLAD and OpenGL

A shallow embedding of `src/main.cpp`.  The program is one linear sequence of
calls into the windowing library (GLFW), the loader (GLAD) and OpenGL, followed
by a render loop.  The embedding makes the library explicit:

* every library call and every `std::cout` statement of the source becomes one
  `Call` appended to a trace, with the arguments the source passes;
* every value the library hands back (the window pointer, the loader result,
  object names, compile and link statuses, info logs, key states, the events
  delivered by `glfwPollEvents`) is read from an abstract environment `Env`;
* the render loop runs on fuel, the number of times its condition may be
  evaluated; a run whose loop has not ended within the fuel has no exit code.

Symbolic constants of the headers (`GL_ARRAY_BUFFER`, `GLFW_PRESS`, ...) are
constructors of small enumerations: only their identity matters.  A `float`
literal is represented by the decimal number written in the source; the
rounding to binary32 is not modelled, and no arithmetic is performed on the
literals by the program.
-/

namespace Trivoodge

/-! ## Symbolic constants -/

/-- Window hints passed to `glfwWindowHint`. -/
inductive WindowHint
  | GLFW_CONTEXT_VERSION_MAJOR
  | GLFW_CONTEXT_VERSION_MINOR
  | GLFW_OPENGL_PROFILE
  | GLFW_OPENGL_FORWARD_COMPAT
  deriving DecidableEq

/-- Values passed to `glfwWindowHint`. -/
inductive HintValue
  | int (n : Int)
  | GLFW_OPENGL_CORE_PROFILE
  | GL_TRUE
  deriving DecidableEq

/-- Shader kinds passed to `glCreateShader`. -/
inductive ShaderType
  | GL_VERTEX_SHADER
  | GL_FRAGMENT_SHADER
  deriving DecidableEq

/-- Status parameters queried by `glGetShaderiv` and `glGetProgramiv`. -/
inductive StatusName
  | GL_COMPILE_STATUS
  | GL_LINK_STATUS
  deriving DecidableEq

/-- Buffer binding targets. -/
inductive BufferTarget
  | GL_ARRAY_BUFFER
  deriving DecidableEq

/-- Buffer usage hints. -/
inductive BufferUsage
  | GL_STATIC_DRAW
  deriving DecidableEq

/-- Component types of a vertex attribute. -/
inductive DataType
  | GL_FLOAT
  deriving DecidableEq

/-- Masks passed to `glClear`. -/
inductive ClearMask
  | GL_COLOR_BUFFER_BIT
  deriving DecidableEq

/-- Primitive modes passed to `glDrawArrays`. -/
inductive DrawMode
  | GL_TRIANGLES
  deriving DecidableEq

/-- Keys queried with `glfwGetKey`. -/
inductive Key
  | GLFW_KEY_Z
  deriving DecidableEq

/-- Results of `glfwGetKey`. -/
inductive KeyAction
  | GLFW_RELEASE
  | GLFW_PRESS
  deriving DecidableEq

/-- Functions of the program that are handed to GLFW as callbacks. -/
inductive Callback
  | framebuffer_size_callback
  deriving DecidableEq

/-! ## Calls -/

/-- One observable action of the program: a call into GLFW, GLAD or OpenGL with
the arguments the source passes, or one `std::cout` statement with the operands
of its `<<` chain (`std::endl` is the operand `"\n"`).  The single window is
implicit: every GLFW call that takes a window takes the one created by `main`. -/
inductive Call
  | glfwInit
  | glfwWindowHint (hint : WindowHint) (value : HintValue)
  | glfwCreateWindow (width height : Nat) (title : String)
  | cout (operands : List String)
  | glfwTerminate
  | glfwMakeContextCurrent
  | glfwSetFramebufferSizeCallback (cb : Callback)
  | gladLoadGLLoader
  | glCreateShader (ty : ShaderType)
  | glShaderSource (shader : Nat) (count : Nat) (source : String)
  | glCompileShader (shader : Nat)
  | glGetShaderiv (shader : Nat) (pname : StatusName)
  | glGetShaderInfoLog (shader : Nat) (bufSize : Nat)
  | glCreateProgram
  | glAttachShader (program shader : Nat)
  | glLinkProgram (program : Nat)
  | glGetProgramiv (program : Nat) (pname : StatusName)
  | glGetProgramInfoLog (program : Nat) (bufSize : Nat)
  | glDeleteShader (shader : Nat)
  | glGenVertexArrays (n : Nat)
  | glGenBuffers (n : Nat)
  | glBindVertexArray (array : Nat)
  | glBindBuffer (target : BufferTarget) (buffer : Nat)
  | glBufferData (target : BufferTarget) (size : Nat) (data : List ℚ) (usage : BufferUsage)
  | glVertexAttribPointer (index size : Nat) (ty : DataType) (normalized : Bool)
      (stride offset : Nat)
  | glEnableVertexAttribArray (index : Nat)
  | glfwWindowShouldClose
  | glfwGetKey (key : Key)
  | glfwSetWindowShouldClose (value : Bool)
  | glClearColor (r g b a : ℚ)
  | glClear (mask : ClearMask)
  | glUseProgram (program : Nat)
  | glDrawArrays (mode : DrawMode) (first count : Int)
  | glfwSwapBuffers
  | glfwPollEvents
  | glViewport (x y width height : Int)
  | glDeleteVertexArrays (n : Nat) (array : Nat)
  | glDeleteBuffers (n : Nat) (buffer : Nat)
  | glDeleteProgram (program : Nat)
  deriving DecidableEq

/-! ## The environment -/

/-- What the library does during one iteration of the render loop. -/
structure Frame where
  /-- Result of `glfwGetKey(window, GLFW_KEY_Z)` inside `processInput`. -/
  key : KeyAction
  /-- Framebuffer sizes reported during `glfwPollEvents`, in order. -/
  resizes : List (Int × Int)
  /-- Effect of `glfwPollEvents` on the should-close flag: `none` leaves it as
  it is, `some b` sets it to `b` (a close request is `some true`). -/
  closeUpdate : Option Bool

/-- The results of the library calls of one run. -/
structure Env where
  /-- Whether `__APPLE__` is defined. -/
  apple : Bool
  /-- Value of `sizeof(float)`. -/
  sizeofFloat : Nat
  /-- Whether `glfwCreateWindow` returns a window (`false`: it returns `NULL`). -/
  windowCreated : Bool
  /-- Whether `gladLoadGLLoader` returns non-zero. -/
  gladLoaded : Bool
  /-- Name returned by `glCreateShader(GL_VERTEX_SHADER)`. -/
  vertexShader : Nat
  /-- Compile status of the vertex shader. -/
  vertexCompiled : Bool
  /-- Info log of the vertex shader. -/
  vertexLog : String
  /-- Name returned by `glCreateShader(GL_FRAGMENT_SHADER)`. -/
  fragmentShader : Nat
  /-- Compile status of the fragment shader. -/
  fragmentCompiled : Bool
  /-- Info log of the fragment shader. -/
  fragmentLog : String
  /-- Name returned by `glCreateProgram`. -/
  shaderProgram : Nat
  /-- Link status of the program. -/
  linked : Bool
  /-- Info log of the program. -/
  programLog : String
  /-- Name written by `glGenVertexArrays`. -/
  VAO : Nat
  /-- Name written by `glGenBuffers`. -/
  VBO : Nat
  /-- Value of the should-close flag when the loop condition is first tested. -/
  closeAtStart : Bool
  /-- Library behaviour in iteration `0, 1, 2, ...` of the render loop. -/
  frames : Nat → Frame

/-- Outcome of a run: the calls made so far, and the value returned by `main`
(`none` while the render loop is still running when the fuel is used up). -/
structure Run where
  trace : List Call
  exit : Option Int

/-! ## The program -/

/-- Constant `SCR_WIDTH`. -/
def SCR_WIDTH : Nat := 800

/-- Constant `SCR_HEIGHT`. -/
def SCR_HEIGHT : Nat := 600

/-- Constant `vertexShaderSource`, up to the explicit terminator. -/
def vertexShaderSource : String :=
  "#version 330 core\n" ++
  "layout (location = 0) in vec3 aPos;\n" ++
  "void main()\n" ++
  "\x7b\n" ++
  "   gl_Position = vec4(aPos.x, aPos.y, aPos.z, 1.0);\n" ++
  "\x7d"

/-- Constant `fragmentShaderSource`, up to the explicit terminator. -/
def fragmentShaderSource : String :=
  "#version 330 core\n" ++
  "out vec4 FragColor;\n" ++
  "void main()\n" ++
  "\x7b\n" ++
  "   FragColor = vec4(0.0f, 1.0f, 1.0f, 1.0f);\n" ++
  "\x7d\n"

/-- The local array `vertices` of `main`. -/
def vertices : List ℚ :=
  [ 0.3, -0.3, 0.0,
    0.7, -0.3, 0.0,
    0.10, 0.7, 0.0,
    -0.6, 0.0, 0.0,
    -0.3, 0.0, 0.0,
    -0.9, 0.7, 0.0 ]

/-- Value of `sizeof(vertices)` for a given `sizeof(float)`. -/
def sizeofVertices (sizeofFloat : Nat) : Nat := vertices.length * sizeofFloat

/-- Function `framebuffer_size_callback`: the calls it makes. -/
def framebuffer_size_callback (width height : Int) : List Call :=
  [Call.glViewport 0 0 width height]

/-- Function `processInput`: the calls it makes and the should-close flag it
leaves, given the result of `glfwGetKey` and the flag on entry. -/
def processInput (key : KeyAction) (close : Bool) : List Call × Bool :=
  if key = KeyAction.GLFW_PRESS then
    ([Call.glfwGetKey Key.GLFW_KEY_Z, Call.glfwSetWindowShouldClose true], true)
  else
    ([Call.glfwGetKey Key.GLFW_KEY_Z], close)

/-- Library function `glfwPollEvents` as seen by the program: it runs the
registered framebuffer-size callback once per reported size and updates the
should-close flag as the environment says. -/
def glfwPollEvents (f : Frame) (close : Bool) : List Call × Bool :=
  (Call.glfwPollEvents ::
      f.resizes.flatMap (fun wh => framebuffer_size_callback wh.1 wh.2),
    match f.closeUpdate with
    | none => close
    | some b => b)

/-- The render loop of `main` (`while (!glfwWindowShouldClose(window))`), from
iteration `i` with should-close flag `close`: the calls made and whether the
loop has ended.  The fuel bounds the number of evaluations of the condition. -/
def renderLoop (env : Env) : Nat → Nat → Bool → List Call × Bool
  | 0, _, _ => ([], false)
  | fuel + 1, i, close =>
    if close then
      ([Call.glfwWindowShouldClose], true)
    else
      let input := processInput (env.frames i).key close
      let polled := glfwPollEvents (env.frames i) input.2
      let rest := renderLoop env fuel (i + 1) polled.2
      (Call.glfwWindowShouldClose ::
          (input.1 ++
            [ Call.glClearColor 1.0 0.5 0.0 1.0,
              Call.glClear ClearMask.GL_COLOR_BUFFER_BIT,
              Call.glUseProgram env.shaderProgram,
              Call.glBindVertexArray env.VAO,
              Call.glDrawArrays DrawMode.GL_TRIANGLES 0 6,
              Call.glfwSwapBuffers ] ++
            polled.1 ++ rest.1),
        rest.2)

/-- Lines 37 to 48 of `main`: library initialisation, hints, window creation. -/
def mainInit (env : Env) : List Call :=
  [ Call.glfwInit,
    Call.glfwWindowHint WindowHint.GLFW_CONTEXT_VERSION_MAJOR (HintValue.int 3),
    Call.glfwWindowHint WindowHint.GLFW_CONTEXT_VERSION_MINOR (HintValue.int 3),
    Call.glfwWindowHint WindowHint.GLFW_OPENGL_PROFILE HintValue.GLFW_OPENGL_CORE_PROFILE ] ++
  (if env.apple then
    [Call.glfwWindowHint WindowHint.GLFW_OPENGL_FORWARD_COMPAT HintValue.GL_TRUE]
  else []) ++
  [Call.glfwCreateWindow SCR_WIDTH SCR_HEIGHT "Zahid"]

/-- Lines 55 to 60 of `main`: context, callback registration, loader call. -/
def mainContext : List Call :=
  [ Call.glfwMakeContextCurrent,
    Call.glfwSetFramebufferSizeCallback Callback.framebuffer_size_callback,
    Call.gladLoadGLLoader ]

/-- Lines 70 to 119 of `main`: compile both shaders, link, delete the shaders. -/
def mainShaders (env : Env) : List Call :=
  [ Call.glCreateShader ShaderType.GL_VERTEX_SHADER,
    Call.glShaderSource env.vertexShader 1 vertexShaderSource,
    Call.glCompileShader env.vertexShader,
    Call.glGetShaderiv env.vertexShader StatusName.GL_COMPILE_STATUS ] ++
  (if !env.vertexCompiled then
    [ Call.glGetShaderInfoLog env.vertexShader 512,
      Call.cout ["ERROR::SHADER::VERTEX::COMPILATION_FAILED\n", env.vertexLog, "\n"] ]
  else []) ++
  [ Call.glCreateShader ShaderType.GL_FRAGMENT_SHADER,
    Call.glShaderSource env.fragmentShader 1 fragmentShaderSource,
    Call.glCompileShader env.fragmentShader,
    Call.glGetShaderiv env.fragmentShader StatusName.GL_COMPILE_STATUS ] ++
  (if !env.fragmentCompiled then
    [ Call.glGetShaderInfoLog env.fragmentShader 512,
      Call.cout ["ERROR::SHADER::FRAGMENT::COMPILATION_FAILED\n", env.fragmentLog, "\n"] ]
  else []) ++
  [ Call.glCreateProgram,
    Call.glAttachShader env.shaderProgram env.vertexShader,
    Call.glAttachShader env.shaderProgram env.fragmentShader,
    Call.glLinkProgram env.shaderProgram,
    Call.glGetProgramiv env.shaderProgram StatusName.GL_LINK_STATUS ] ++
  (if !env.linked then
    [ Call.glGetProgramInfoLog env.shaderProgram 512,
      Call.cout ["ERROR::SHADER::PROGRAM::LINKING_FAILED\n", env.programLog, "\n"] ]
  else []) ++
  [ Call.glDeleteShader env.vertexShader,
    Call.glDeleteShader env.fragmentShader ]

/-- Lines 123 to 174 of `main`: vertex array, buffer upload, vertex layout. -/
def mainBuffers (env : Env) : List Call :=
  [ Call.glGenVertexArrays 1,
    Call.glGenBuffers 1,
    Call.glBindVertexArray env.VAO,
    Call.glBindBuffer BufferTarget.GL_ARRAY_BUFFER env.VBO,
    Call.glBufferData BufferTarget.GL_ARRAY_BUFFER (sizeofVertices env.sizeofFloat) vertices
      BufferUsage.GL_STATIC_DRAW,
    Call.glVertexAttribPointer 0 3 DataType.GL_FLOAT false (3 * env.sizeofFloat) 0,
    Call.glEnableVertexAttribArray 0,
    Call.glBindBuffer BufferTarget.GL_ARRAY_BUFFER 0,
    Call.glBindVertexArray 0 ]

/-- Lines 207 to 213 of `main`: release the GPU objects, shut GLFW down. -/
def mainCleanup (env : Env) : List Call :=
  [ Call.glDeleteVertexArrays 1 env.VAO,
    Call.glDeleteBuffers 1 env.VBO,
    Call.glDeleteProgram env.shaderProgram,
    Call.glfwTerminate ]

/-- Function `main`. -/
def main (env : Env) (fuel : Nat) : Run :=
  if !env.windowCreated then
    { trace := mainInit env ++ [Call.cout ["Failed to create GLFW window", "\n"], Call.glfwTerminate],
      exit := some (-1) }
  else if !env.gladLoaded then
    { trace := mainInit env ++ mainContext ++ [Call.cout ["Failed to initialize GLAD", "\n"]],
      exit := some (-1) }
  else
    let loop := renderLoop env fuel 0 env.closeAtStart
    if loop.2 then
      { trace := mainInit env ++ mainContext ++ mainShaders env ++ mainBuffers env ++ loop.1 ++
          mainCleanup env,
        exit := some 0 }
    else
      { trace := mainInit env ++ mainContext ++ mainShaders env ++ mainBuffers env ++ loop.1,
        exit := none }

/-- Value of the should-close flag when the loop condition is tested for the
`n`-th time (counting from 0), were the loop to run that long. -/
def closeFlagAt (env : Env) : Nat → Bool
  | 0 => env.closeAtStart
  | n + 1 => (glfwPollEvents (env.frames n) (processInput (env.frames n).key (closeFlagAt env n)).2).2

/-- The environment `env` with the three statuses (vertex compile, fragment
compile, link) replaced by `v`, `f` and `l`. -/
def Env.withStatuses (env : Env) (v f l : Bool) : Env :=
  { env with vertexCompiled := v, fragmentCompiled := f, linked := l }

/-! ## Observations on traces -/

/-- Calls into OpenGL (the `gl...` functions), as opposed to GLFW, GLAD and
console output. -/
def Call.isGL : Call → Bool
  | .glCreateShader _ => true
  | .glShaderSource _ _ _ => true
  | .glCompileShader _ => true
  | .glGetShaderiv _ _ => true
  | .glGetShaderInfoLog _ _ => true
  | .glCreateProgram => true
  | .glAttachShader _ _ => true
  | .glLinkProgram _ => true
  | .glGetProgramiv _ _ => true
  | .glGetProgramInfoLog _ _ => true
  | .glDeleteShader _ => true
  | .glGenVertexArrays _ => true
  | .glGenBuffers _ => true
  | .glBindVertexArray _ => true
  | .glBindBuffer _ _ => true
  | .glBufferData _ _ _ _ => true
  | .glVertexAttribPointer _ _ _ _ _ _ => true
  | .glEnableVertexAttribArray _ => true
  | .glClearColor _ _ _ _ => true
  | .glClear _ => true
  | .glUseProgram _ => true
  | .glDrawArrays _ _ _ => true
  | .glViewport _ _ _ _ => true
  | .glDeleteVertexArrays _ _ => true
  | .glDeleteBuffers _ _ => true
  | .glDeleteProgram _ => true
  | _ => false

/-- Calls to `glfwTerminate`. -/
def Call.isTerminate : Call → Bool
  | .glfwTerminate => true
  | _ => false

/-- Calls to `glDrawArrays`. -/
def Call.isDraw : Call → Bool
  | .glDrawArrays _ _ _ => true
  | _ => false

/-- Calls to `glfwSwapBuffers`. -/
def Call.isSwap : Call → Bool
  | .glfwSwapBuffers => true
  | _ => false

/-- Calls to `glfwWindowShouldClose`, the test of the loop condition. -/
def Call.isLoopTest : Call → Bool
  | .glfwWindowShouldClose => true
  | _ => false

/-- Calls to `glBufferData`. -/
def Call.isBufferData : Call → Bool
  | .glBufferData _ _ _ _ => true
  | _ => false

/-- Calls to `glDeleteVertexArrays`. -/
def Call.isDeleteVertexArrays : Call → Bool
  | .glDeleteVertexArrays _ _ => true
  | _ => false

/-- Calls to `glDeleteBuffers`. -/
def Call.isDeleteBuffers : Call → Bool
  | .glDeleteBuffers _ _ => true
  | _ => false

/-- Calls to `glDeleteProgram`. -/
def Call.isDeleteProgram : Call → Bool
  | .glDeleteProgram _ => true
  | _ => false

/-- Calls to `glVertexAttribPointer`. -/
def Call.isVertexAttribPointer : Call → Bool
  | .glVertexAttribPointer _ _ _ _ _ _ => true
  | _ => false

/-- Calls that belong to the render loop or to the shutdown of `main`: a draw,
a buffer swap, a loop test, `glfwTerminate`, or the deletion of the vertex
array, the buffer or the program. -/
def Call.isLoopOrCleanup (c : Call) : Bool :=
  c.isDraw || c.isSwap || c.isLoopTest || c.isTerminate || c.isDeleteVertexArrays ||
    c.isDeleteBuffers || c.isDeleteProgram

/-- Calls of the three diagnostic blocks of `main`: retrieval of an info log,
and the `std::cout` statement that opens with one of the three error headers. -/
def Call.inDiagnosticBlock : Call → Bool
  | .glGetShaderInfoLog _ _ => true
  | .glGetProgramInfoLog _ _ => true
  | .cout (header :: _) =>
      header = "ERROR::SHADER::VERTEX::COMPILATION_FAILED\n" ||
      header = "ERROR::SHADER::FRAGMENT::COMPILATION_FAILED\n" ||
      header = "ERROR::SHADER::PROGRAM::LINKING_FAILED\n"
  | _ => false

/-- Calls of iteration `i` of the render loop when it is entered with the
should-close flag unset: the loop test, `processInput`, the six rendering
calls, and `glfwPollEvents` with the callbacks it runs. -/
def iterationCalls (env : Env) (i : Nat) : List Call :=
  Call.glfwWindowShouldClose ::
    ((processInput (env.frames i).key false).1 ++
      [ Call.glClearColor 1.0 0.5 0.0 1.0,
        Call.glClear ClearMask.GL_COLOR_BUFFER_BIT,
        Call.glUseProgram env.shaderProgram,
        Call.glBindVertexArray env.VAO,
        Call.glDrawArrays DrawMode.GL_TRIANGLES 0 6,
        Call.glfwSwapBuffers ] ++
      (glfwPollEvents (env.frames i) (processInput (env.frames i).key false).2).1)

/-- Number of iterations the render loop performs from iteration `i` on when
its condition may be evaluated `fuel` times. -/
def iterationsRun (env : Env) : Nat → Nat → Nat
  | 0, _ => 0
  | fuel + 1, i => if closeFlagAt env i then 0 else iterationsRun env fuel (i + 1) + 1

/-- The calls of `main` after the buffer setup: the iterations the fuel allows
and, when the loop has ended, the final loop test and the cleanup. -/
def loopAndCleanup (env : Env) (fuel : Nat) : List Call :=
  (List.range (iterationsRun env fuel 0)).flatMap (fun i => iterationCalls env i) ++
    (if iterationsRun env fuel 0 < fuel then Call.glfwWindowShouldClose :: mainCleanup env
      else [])

/-! ## Vertex fetch and geometry -/

/-- Byte range `[lo, hi)` of the buffer that vertex `i` reads for an attribute
laid out by `glVertexAttribPointer(_, size, _, _, stride, offset)` whose
components are `elemSize` bytes each. -/
def attribBytes (size elemSize stride offset i : Nat) : Nat × Nat :=
  (offset + i * stride, offset + i * stride + size * elemSize)

/-- The `x` and `y` coordinates of vertex `i` of the array `vertices`. -/
def vertexXY (i : Nat) : ℚ × ℚ :=
  (vertices.getD (3 * i) 0, vertices.getD (3 * i + 1) 0)

/-- The `z` coordinate of vertex `i` of the array `vertices`. -/
def vertexZ (i : Nat) : ℚ := vertices.getD (3 * i + 2) 0

/-- Dot product of the edge vectors from `p` to `a` and from `p` to `b`. -/
def edgeDot (p a b : ℚ × ℚ) : ℚ :=
  (a.1 - p.1) * (b.1 - p.1) + (a.2 - p.2) * (b.2 - p.2)

/-- Twice the signed area of the triangle `p`, `a`, `b`. -/
def doubleArea (p a b : ℚ × ℚ) : ℚ :=
  (a.1 - p.1) * (b.2 - p.2) - (a.2 - p.2) * (b.1 - p.1)

/-! ## Sample environments -/

/-- Sample frames: the exit key is pressed in iteration 2, and every other
iteration reports one framebuffer resize. -/
def sampleFrames (i : Nat) : Frame :=
  if i = 2 then { key := KeyAction.GLFW_PRESS, resizes := [], closeUpdate := none }
  else { key := KeyAction.GLFW_RELEASE, resizes := [(1024, 768)], closeUpdate := none }

/-- Sample environment in which everything succeeds. -/
def sampleEnv : Env :=
  { apple := false, sizeofFloat := 4, windowCreated := true, gladLoaded := true,
    vertexShader := 1, vertexCompiled := true, vertexLog := "",
    fragmentShader := 2, fragmentCompiled := true, fragmentLog := "",
    shaderProgram := 3, linked := true, programLog := "",
    VAO := 1, VBO := 1, closeAtStart := false, frames := sampleFrames }

/-- Sample environment in which `glfwCreateWindow` returns `NULL`. -/
def noWindowEnv : Env := { sampleEnv with windowCreated := false }

/-- Sample environment in which the window is created and `gladLoadGLLoader`
returns 0. -/
def noGladEnv : Env := { sampleEnv with gladLoaded := false }

/-- Sample environment in which the close signal is already set when the loop
condition is first tested. -/
def closedAtStartEnv : Env := { sampleEnv with closeAtStart := true }

/-- Sample environment in which the vertex shader fails to compile and the
program fails to link. -/
def brokenShaderEnv : Env :=
  { sampleEnv with vertexLog := "0:1: syntax error", programLog := "link error" }

/-! ## Lemmas on the render loop -/

theorem flatMap_range_succ_head {α : Type} (g : Nat → List α) (n : Nat) :
    (List.range (n + 1)).flatMap g = g 0 ++ (List.range n).flatMap (fun m => g (m + 1)) := by
  rw [List.range_succ_eq_map, List.flatMap_cons, List.flatMap_map]

theorem iterationsRun_le (env : Env) : ∀ fuel i, iterationsRun env fuel i ≤ fuel
  | 0, _ => Nat.le_refl 0
  | fuel + 1, i => by
    unfold iterationsRun
    split
    · exact Nat.zero_le _
    · exact Nat.succ_le_succ (iterationsRun_le env fuel (i + 1))

theorem closeFlagAt_before (env : Env) :
    ∀ fuel i m, m < iterationsRun env fuel i → closeFlagAt env (i + m) = false
  | 0, _, m, h => by simp [iterationsRun] at h
  | fuel + 1, i, m, h => by
    unfold iterationsRun at h
    split at h
    · simp at h
    · next hc =>
      cases m with
      | zero => simpa using hc
      | succ m =>
        have := closeFlagAt_before env fuel (i + 1) m (by omega)
        rwa [show i + (m + 1) = i + 1 + m by omega]

theorem closeFlagAt_after (env : Env) :
    ∀ fuel i, iterationsRun env fuel i < fuel →
      closeFlagAt env (i + iterationsRun env fuel i) = true
  | 0, _, h => by simp at h
  | fuel + 1, i, h => by
    unfold iterationsRun at h ⊢
    split
    · next hc => simpa using hc
    · next hc =>
      rw [if_neg hc] at h
      have := closeFlagAt_after env fuel (i + 1) (by omega)
      rwa [show i + (iterationsRun env fuel (i + 1) + 1) = i + 1 + iterationsRun env fuel (i + 1)
        by omega]

theorem iterationsRun_of_close (env : Env) :
    ∀ fuel i n, closeFlagAt env (i + n) = true → n < fuel → iterationsRun env fuel i < fuel
  | 0, _, _, _, h => by simp at h
  | fuel + 1, i, n, hc, h => by
    unfold iterationsRun
    split
    · omega
    · next hi =>
      cases n with
      | zero => exact absurd hc hi
      | succ n =>
        have := iterationsRun_of_close env fuel (i + 1) n
          (by rwa [show i + 1 + n = i + (n + 1) by omega]) (by omega)
        omega

theorem renderLoop_eq (env : Env) :
    ∀ fuel i,
      renderLoop env fuel i (closeFlagAt env i) =
        ((List.range (iterationsRun env fuel i)).flatMap (fun m => iterationCalls env (i + m)) ++
            (if iterationsRun env fuel i < fuel then [Call.glfwWindowShouldClose] else []),
          decide (iterationsRun env fuel i < fuel))
  | 0, _ => by simp [renderLoop, iterationsRun]
  | fuel + 1, i => by
    unfold renderLoop iterationsRun
    cases hc : closeFlagAt env i with
    | true => simp
    | false =>
      have hnext : (glfwPollEvents (env.frames i) (processInput (env.frames i).key false).2).2 =
          closeFlagAt env (i + 1) := by
        conv_rhs => unfold closeFlagAt
        rw [hc]
      simp only [Bool.false_eq_true, if_false]
      rw [hnext, renderLoop_eq env fuel (i + 1), flatMap_range_succ_head]
      simp [iterationCalls, Nat.add_assoc, Nat.add_comm 1]

theorem mem_iterationCalls (env : Env) (i : Nat) (c : Call) (hc : c ∈ iterationCalls env i) :
    c = Call.glfwWindowShouldClose ∨ c = Call.glfwGetKey Key.GLFW_KEY_Z ∨
      c = Call.glfwSetWindowShouldClose true ∨ c = Call.glClearColor 1.0 0.5 0.0 1.0 ∨
      c = Call.glClear ClearMask.GL_COLOR_BUFFER_BIT ∨ c = Call.glUseProgram env.shaderProgram ∨
      c = Call.glBindVertexArray env.VAO ∨ c = Call.glDrawArrays DrawMode.GL_TRIANGLES 0 6 ∨
      c = Call.glfwSwapBuffers ∨ c = Call.glfwPollEvents ∨
      ∃ w h, c = Call.glViewport 0 0 w h := by
  unfold iterationCalls processInput glfwPollEvents framebuffer_size_callback at hc
  split at hc <;> simp at hc <;> aesop

theorem countP_flatMap_range (p : Call → Bool) (g : Nat → List Call) (k : Nat)
    (h : ∀ m, (g m).countP p = k) : ∀ n, ((List.range n).flatMap g).countP p = n * k
  | 0 => by simp
  | n + 1 => by
    rw [List.range_succ, List.flatMap_append, List.countP_append, countP_flatMap_range p g k h n]
    simp [h, Nat.succ_mul]

theorem countP_callbacks (p : Call → Bool) (hp : ∀ w h, p (Call.glViewport 0 0 w h) = false) :
    ∀ l : List (Int × Int),
      (l.flatMap (fun wh => framebuffer_size_callback wh.1 wh.2)).countP p = 0
  | [] => by simp
  | wh :: l => by
    rw [List.flatMap_cons, List.countP_append, countP_callbacks p hp l]
    simp [framebuffer_size_callback, hp]

theorem countP_iterationCalls_zero (p : Call → Bool) (env : Env) (i : Nat)
    (h : ∀ c ∈ iterationCalls env i, p c = false) : (iterationCalls env i).countP p = 0 := by
  rw [List.countP_eq_zero]
  intro a ha
  simp [h a ha]

theorem countP_loop_zero (p : Call → Bool) (env : Env)
    (h : ∀ i, ∀ c ∈ iterationCalls env i, p c = false) (n : Nat) :
    ((List.range n).flatMap (fun i => iterationCalls env i)).countP p = 0 := by
  rw [countP_flatMap_range p _ 0 (fun m => countP_iterationCalls_zero p env m (h m)) n,
    Nat.mul_zero]

theorem countP_isDraw_iterationCalls (env : Env) (i : Nat) :
    (iterationCalls env i).countP Call.isDraw = 1 := by
  unfold iterationCalls processInput glfwPollEvents
  split <;>
    simp [List.countP_cons, Call.isDraw,
      countP_callbacks Call.isDraw (fun _ _ => rfl) (env.frames i).resizes]

theorem countP_isSwap_iterationCalls (env : Env) (i : Nat) :
    (iterationCalls env i).countP Call.isSwap = 1 := by
  unfold iterationCalls processInput glfwPollEvents
  split <;>
    simp [List.countP_cons, Call.isSwap,
      countP_callbacks Call.isSwap (fun _ _ => rfl) (env.frames i).resizes]

theorem countP_isLoopTest_iterationCalls (env : Env) (i : Nat) :
    (iterationCalls env i).countP Call.isLoopTest = 1 := by
  unfold iterationCalls processInput glfwPollEvents
  split <;>
    simp [List.countP_cons, Call.isLoopTest,
      countP_callbacks Call.isLoopTest (fun _ _ => rfl) (env.frames i).resizes]

theorem iterationsRun_eq (env : Env) (fuel n : Nat) (hn : n < fuel)
    (hbefore : ∀ m, m < n → closeFlagAt env m = false) (hat : closeFlagAt env n = true) :
    iterationsRun env fuel 0 = n := by
  have hlt := iterationsRun_of_close env fuel 0 n (by simpa using hat) hn
  have hafter := closeFlagAt_after env fuel 0 hlt
  rw [Nat.zero_add] at hafter
  rcases Nat.lt_trichotomy (iterationsRun env fuel 0) n with h | h | h
  · rw [hbefore _ h] at hafter
    exact absurd hafter (by simp)
  · exact h
  · have := closeFlagAt_before env fuel 0 n h
    rw [Nat.zero_add, hat] at this
    exact absurd this (by simp)

/-! ## Lemmas on `main` -/

theorem main_window_failure (env : Env) (fuel : Nat) (hw : env.windowCreated = false) :
    main env fuel =
      { trace := mainInit env ++
          [Call.cout ["Failed to create GLFW window", "\n"], Call.glfwTerminate],
        exit := some (-1) } := by
  simp [main, hw]

theorem main_glad_failure (env : Env) (fuel : Nat) (hw : env.windowCreated = true)
    (hg : env.gladLoaded = false) :
    main env fuel =
      { trace := mainInit env ++ mainContext ++ [Call.cout ["Failed to initialize GLAD", "\n"]],
        exit := some (-1) } := by
  simp [main, hw, hg]

theorem main_running (env : Env) (fuel : Nat) (hw : env.windowCreated = true)
    (hg : env.gladLoaded = true) (h : ¬ iterationsRun env fuel 0 < fuel) :
    main env fuel =
      { trace := mainInit env ++ mainContext ++ mainShaders env ++ mainBuffers env ++
          (List.range (iterationsRun env fuel 0)).flatMap (fun i => iterationCalls env i),
        exit := none } := by
  have hl := renderLoop_eq env fuel 0
  simp only [closeFlagAt, Nat.zero_add] at hl
  simp [main, hw, hg, hl, h]

theorem main_ended (env : Env) (fuel : Nat) (hw : env.windowCreated = true)
    (hg : env.gladLoaded = true) (h : iterationsRun env fuel 0 < fuel) :
    main env fuel =
      { trace := mainInit env ++ mainContext ++ mainShaders env ++ mainBuffers env ++
          ((List.range (iterationsRun env fuel 0)).flatMap (fun i => iterationCalls env i) ++
            [Call.glfwWindowShouldClose]) ++ mainCleanup env,
        exit := some 0 } := by
  have hl := renderLoop_eq env fuel 0
  simp only [closeFlagAt, Nat.zero_add] at hl
  simp [main, hw, hg, hl, h]

theorem isGL_mainInit (env : Env) : ∀ c ∈ mainInit env, c.isGL = false := by
  intro c hc
  cases ha : env.apple <;> simp [mainInit, ha] at hc <;>
    rcases hc with h | h | h | h | h <;> first | (subst h; rfl) | (rcases h with h | h <;> subst h <;> rfl)

theorem forall_false_of_all {p : Call → Bool} {l : List Call}
    (h : l.all (fun c => !p c) = true) : ∀ c ∈ l, p c = false := by
  intro c hc
  simpa using List.all_eq_true.1 h c hc

theorem setup_all (p : Call → Bool) (env : Env)
    (h : ∀ a b c d : Bool,
      (mainInit { env with apple := a } ++ mainContext ++
        mainShaders { env with vertexCompiled := b, fragmentCompiled := c, linked := d } ++
        mainBuffers env).all (fun x => !p x) = true) :
    ∀ c ∈ mainInit env ++ mainContext ++ mainShaders env ++ mainBuffers env, p c = false :=
  forall_false_of_all (h env.apple env.vertexCompiled env.fragmentCompiled env.linked)

theorem preBuffers_all (p : Call → Bool) (env : Env)
    (h : ∀ a b c d : Bool,
      (mainInit { env with apple := a } ++ mainContext ++
        mainShaders { env with vertexCompiled := b, fragmentCompiled := c, linked := d }).all
          (fun x => !p x) = true) :
    ∀ c ∈ mainInit env ++ mainContext ++ mainShaders env, p c = false :=
  forall_false_of_all (h env.apple env.vertexCompiled env.fragmentCompiled env.linked)

theorem setup_no_loop_or_cleanup_call (env : Env) :
    ∀ c ∈ mainInit env ++ mainContext ++ mainShaders env ++ mainBuffers env,
      c.isDraw = false ∧ c.isSwap = false ∧ c.isLoopTest = false ∧ c.isTerminate = false ∧
        c.isDeleteVertexArrays = false ∧ c.isDeleteBuffers = false ∧
        c.isDeleteProgram = false := by
  intro c hc
  have h : c.isLoopOrCleanup = false :=
    setup_all Call.isLoopOrCleanup env
      (fun a b c d => by cases a <;> cases b <;> cases c <;> cases d <;> rfl) c hc
  simp only [Call.isLoopOrCleanup, Bool.or_eq_false_iff] at h
  obtain ⟨⟨⟨⟨⟨⟨h1, h2⟩, h3⟩, h4⟩, h5⟩, h6⟩, h7⟩ := h
  exact ⟨h1, h2, h3, h4, h5, h6, h7⟩

theorem loop_no_cleanup_call (env : Env) (i : Nat) :
    ∀ c ∈ iterationCalls env i,
      c.isTerminate = false ∧ c.isDeleteVertexArrays = false ∧ c.isDeleteBuffers = false ∧
        c.isDeleteProgram = false ∧ c.isBufferData = false ∧
        c.isVertexAttribPointer = false ∧ c.inDiagnosticBlock = false := by
  intro c hc
  rcases mem_iterationCalls env i c hc with
    h | h | h | h | h | h | h | h | h | h | ⟨w, h, rfl⟩ <;>
  first
  | (subst h; exact ⟨rfl, rfl, rfl, rfl, rfl, rfl, rfl⟩)
  | exact ⟨rfl, rfl, rfl, rfl, rfl, rfl, rfl⟩

theorem countP_setup_zero (p : Call → Bool) (env : Env)
    (hp : ∀ c ∈ mainInit env ++ mainContext ++ mainShaders env ++ mainBuffers env, p c = false) :
    (mainInit env).countP p + mainContext.countP p + (mainShaders env).countP p +
      (mainBuffers env).countP p = 0 := by
  have h : (mainInit env ++ mainContext ++ mainShaders env ++ mainBuffers env).countP p = 0 := by
    rw [List.countP_eq_zero]
    intro a ha
    simp [hp a ha]
  simpa only [List.countP_append] using h

theorem setup_upload_and_layout (env : Env) :
    ∀ c ∈ mainInit env ++ mainContext ++ mainShaders env ++ mainBuffers env,
      (c.isBufferData = true →
        c = Call.glBufferData BufferTarget.GL_ARRAY_BUFFER (sizeofVertices env.sizeofFloat)
          vertices BufferUsage.GL_STATIC_DRAW) ∧
      (c.isVertexAttribPointer = true →
        c = Call.glVertexAttribPointer 0 3 DataType.GL_FLOAT false (3 * env.sizeofFloat) 0) := by
  intro c hc
  simp only [List.mem_append] at hc
  rcases hc with hc | hc
  · have h := preBuffers_all (fun x => x.isBufferData || x.isVertexAttribPointer) env
      (fun a b c d => by cases a <;> cases b <;> cases c <;> cases d <;> rfl) c
      (by simpa only [List.mem_append] using hc)
    simp only [Bool.or_eq_false_iff] at h
    simp [h.1, h.2]
  · simp only [mainBuffers, List.mem_cons, List.mem_singleton, List.not_mem_nil, or_false] at hc
    rcases hc with h | h | h | h | h | h | h | h | h <;> subst h <;>
      simp [Call.isBufferData, Call.isVertexAttribPointer]

theorem main_after_setup (env : Env) (fuel : Nat) (hw : env.windowCreated = true)
    (hg : env.gladLoaded = true) :
    ∃ rest, (main env fuel).trace =
        mainInit env ++ mainContext ++ mainShaders env ++ mainBuffers env ++ rest ∧
      ∀ c ∈ rest, c.isBufferData = false ∧ c.isVertexAttribPointer = false ∧
        c.inDiagnosticBlock = false ∧
        (c.isDraw = true → c = Call.glDrawArrays DrawMode.GL_TRIANGLES 0 6) := by
  have hloop : ∀ c ∈ (List.range (iterationsRun env fuel 0)).flatMap
      (fun i => iterationCalls env i),
      c.isBufferData = false ∧ c.isVertexAttribPointer = false ∧
        c.inDiagnosticBlock = false ∧
        (c.isDraw = true → c = Call.glDrawArrays DrawMode.GL_TRIANGLES 0 6) := by
    intro c hc
    obtain ⟨i, _, hi⟩ := List.mem_flatMap.1 hc
    have := loop_no_cleanup_call env i c hi
    refine ⟨this.2.2.2.2.1, this.2.2.2.2.2.1, this.2.2.2.2.2.2, ?_⟩
    rcases mem_iterationCalls env i c hi with
      h | h | h | h | h | h | h | h | h | h | ⟨w, h, rfl⟩ <;>
    first
    | (subst h; simp [Call.isDraw])
    | simp [Call.isDraw]
  by_cases h : iterationsRun env fuel 0 < fuel
  · refine ⟨(List.range (iterationsRun env fuel 0)).flatMap (fun i => iterationCalls env i) ++
      [Call.glfwWindowShouldClose] ++ mainCleanup env, ?_, ?_⟩
    · rw [main_ended env fuel hw hg h]
      simp only [List.append_assoc]
    · intro c hc
      simp only [List.mem_append] at hc
      rcases hc with (hc | hc) | hc
      · exact hloop c hc
      · rw [List.mem_singleton] at hc
        subst hc
        exact ⟨rfl, rfl, rfl, by simp [Call.isDraw]⟩
      · simp only [mainCleanup, List.mem_cons, List.mem_singleton, List.not_mem_nil,
          or_false] at hc
        rcases hc with h | h | h | h <;> subst h <;>
          exact ⟨rfl, rfl, rfl, by simp [Call.isDraw]⟩
  · exact ⟨_, by rw [main_running env fuel hw hg h], hloop⟩

theorem filter_append_seven (p : Call → Bool) (a dv b df c dl d : List Call) :
    (a ++ dv ++ b ++ df ++ c ++ dl ++ d).filter p =
      a.filter p ++ dv.filter p ++ b.filter p ++ df.filter p ++ c.filter p ++ dl.filter p ++
        d.filter p := by
  simp only [List.filter_append]

theorem closeFlagAt_withStatuses (env : Env) (v f l : Bool) :
    ∀ n, closeFlagAt (env.withStatuses v f l) n = closeFlagAt env n
  | 0 => rfl
  | n + 1 => by
    unfold closeFlagAt
    rw [closeFlagAt_withStatuses env v f l n]
    rfl

theorem iterationsRun_withStatuses (env : Env) (v f l : Bool) :
    ∀ fuel i, iterationsRun (env.withStatuses v f l) fuel i = iterationsRun env fuel i
  | 0, _ => rfl
  | fuel + 1, i => by
    unfold iterationsRun
    rw [closeFlagAt_withStatuses, iterationsRun_withStatuses env v f l fuel (i + 1)]

theorem mainShaders_withStatuses (env : Env) (v f l : Bool) :
    mainShaders (env.withStatuses v f l) =
      [ Call.glCreateShader ShaderType.GL_VERTEX_SHADER,
        Call.glShaderSource env.vertexShader 1 vertexShaderSource,
        Call.glCompileShader env.vertexShader,
        Call.glGetShaderiv env.vertexShader StatusName.GL_COMPILE_STATUS ] ++
      (if v then [] else
        [ Call.glGetShaderInfoLog env.vertexShader 512,
          Call.cout ["ERROR::SHADER::VERTEX::COMPILATION_FAILED\n", env.vertexLog, "\n"] ]) ++
      [ Call.glCreateShader ShaderType.GL_FRAGMENT_SHADER,
        Call.glShaderSource env.fragmentShader 1 fragmentShaderSource,
        Call.glCompileShader env.fragmentShader,
        Call.glGetShaderiv env.fragmentShader StatusName.GL_COMPILE_STATUS ] ++
      (if f then [] else
        [ Call.glGetShaderInfoLog env.fragmentShader 512,
          Call.cout ["ERROR::SHADER::FRAGMENT::COMPILATION_FAILED\n", env.fragmentLog, "\n"] ]) ++
      [ Call.glCreateProgram,
        Call.glAttachShader env.shaderProgram env.vertexShader,
        Call.glAttachShader env.shaderProgram env.fragmentShader,
        Call.glLinkProgram env.shaderProgram,
        Call.glGetProgramiv env.shaderProgram StatusName.GL_LINK_STATUS ] ++
      (if l then [] else
        [ Call.glGetProgramInfoLog env.shaderProgram 512,
          Call.cout ["ERROR::SHADER::PROGRAM::LINKING_FAILED\n", env.programLog, "\n"] ]) ++
      [ Call.glDeleteShader env.vertexShader,
        Call.glDeleteShader env.fragmentShader ] := by
  cases v <;> cases f <;> cases l <;> rfl

theorem setup_ok_no_diagnostic (env : Env) :
    ∀ c ∈ mainInit env ++ mainContext ++ mainShaders (env.withStatuses true true true) ++
      mainBuffers env, c.inDiagnosticBlock = false :=
  have h : ∀ a : Bool,
      (mainInit { env with apple := a } ++ mainContext ++
        mainShaders (env.withStatuses true true true) ++ mainBuffers env).all
        (fun x => !x.inDiagnosticBlock) = true := by
    intro a
    cases a <;> rfl
  forall_false_of_all (h env.apple)

theorem loopAndCleanup_no_diagnostic (env : Env) (fuel : Nat) :
    ∀ c ∈ loopAndCleanup env fuel, c.inDiagnosticBlock = false := by
  intro c hc
  unfold loopAndCleanup at hc
  rcases List.mem_append.1 hc with hc | hc
  · obtain ⟨i, _, hi⟩ := List.mem_flatMap.1 hc
    exact (loop_no_cleanup_call env i c hi).2.2.2.2.2.2
  · split_ifs at hc
    · simp only [mainCleanup, List.mem_cons, List.mem_singleton, List.not_mem_nil,
        or_false] at hc
      rcases hc with h | h | h | h | h <;> subst h <;> rfl
    · simp at hc

theorem main_withStatuses (env : Env) (v f l : Bool) (fuel : Nat)
    (hw : env.windowCreated = true) (hg : env.gladLoaded = true) :
    (main (env.withStatuses v f l) fuel).trace =
        mainInit env ++ mainContext ++ mainShaders (env.withStatuses v f l) ++ mainBuffers env ++
          loopAndCleanup env fuel ∧
      (main (env.withStatuses v f l) fuel).exit =
        (if iterationsRun env fuel 0 < fuel then some 0 else none) := by
  have hr := iterationsRun_withStatuses env v f l fuel 0
  by_cases h : iterationsRun env fuel 0 < fuel
  · rw [main_ended (env.withStatuses v f l) fuel hw hg (by rw [hr]; exact h), hr]
    simp only [loopAndCleanup, h, if_true, List.append_assoc, List.singleton_append]
    exact ⟨rfl, trivial⟩
  · rw [main_running (env.withStatuses v f l) fuel hw hg (by rw [hr]; exact h), hr]
    simp only [loopAndCleanup, h, if_false, List.append_nil]
    exact ⟨rfl, trivial⟩

/-! ## Exit codes -/

/-- Claim C1.  `main` returns -1 after printing "Failed to create GLFW window"
when `glfwCreateWindow` returns `NULL`; it returns -1 after printing "Failed to
initialize GLAD" when the window is created and `gladLoadGLLoader` returns 0; in
every other run it returns 0 as soon as the render loop ends (the should-close
flag is set at one of the loop tests the fuel allows) and has no exit code
before that.  No other exit code occurs, and a run that returns -1 makes no
OpenGL call at all. -/
theorem main_exit_codes (env : Env) (fuel : Nat) :
    (env.windowCreated = false →
      (main env fuel).exit = some (-1) ∧
      (main env fuel).trace =
        mainInit env ++ [Call.cout ["Failed to create GLFW window", "\n"], Call.glfwTerminate]) ∧
    (env.windowCreated = true → env.gladLoaded = false →
      (main env fuel).exit = some (-1) ∧
      (main env fuel).trace =
        mainInit env ++ mainContext ++ [Call.cout ["Failed to initialize GLAD", "\n"]]) ∧
    (env.windowCreated = true → env.gladLoaded = true →
      ((main env fuel).exit = some 0 ∨ (main env fuel).exit = none) ∧
      (∀ n, n < fuel → closeFlagAt env n = true → (main env fuel).exit = some 0) ∧
      ((main env fuel).exit = some 0 → ∃ n, n < fuel ∧ closeFlagAt env n = true)) ∧
    ((main env fuel).exit = some 0 ∨ (main env fuel).exit = some (-1) ∨
      (main env fuel).exit = none) ∧
    ((main env fuel).exit = some (-1) → ∀ c ∈ (main env fuel).trace, c.isGL = false) := by
  cases hw : env.windowCreated with
  | false =>
    rw [main_window_failure env fuel hw]
    refine ⟨fun _ => ⟨rfl, rfl⟩, fun h => by simp at h, fun h => by simp at h, by simp, ?_⟩
    intro _ c hc
    rcases List.mem_append.1 hc with h | h
    · exact isGL_mainInit env c h
    · simp at h
      rcases h with h | h <;> subst h <;> rfl
  | true =>
    cases hg : env.gladLoaded with
    | false =>
      rw [main_glad_failure env fuel hw hg]
      refine ⟨fun h => by simp at h, fun _ _ => ⟨rfl, rfl⟩, fun _ h => by simp at h, by simp, ?_⟩
      intro _ c hc
      rcases List.mem_append.1 hc with h | h
      · rcases List.mem_append.1 h with h | h
        · exact isGL_mainInit env c h
        · simp [mainContext] at h
          rcases h with h | h | h <;> subst h <;> rfl
      · simp at h
        subst h
        rfl
    | true =>
      by_cases h : iterationsRun env fuel 0 < fuel
      · rw [main_ended env fuel hw hg h]
        refine ⟨fun h => by simp at h, fun _ h => by simp at h, fun _ _ => ⟨by simp, ?_, ?_⟩,
          by simp, fun h => by simp at h⟩
        · intro _ _ _
          rfl
        · intro _
          exact ⟨iterationsRun env fuel 0, h, by simpa using closeFlagAt_after env fuel 0 h⟩
      · rw [main_running env fuel hw hg h]
        refine ⟨fun h => by simp at h, fun _ h => by simp at h, fun _ _ => ⟨by simp, ?_, ?_⟩,
          by simp, fun h => by simp at h⟩
        · intro n hn hc
          exact absurd (iterationsRun_of_close env fuel 0 n (by simpa using hc) hn) h
        · intro h0
          simp at h0

/-- Witness for `main_exit_codes`: the three kinds of run at sample inputs. -/
theorem main_exit_codes_witness :
    (main noWindowEnv 5).exit = some (-1) ∧ (main noGladEnv 5).exit = some (-1) ∧
      (main sampleEnv 5).exit = some 0 ∧ (main sampleEnv 2).exit = none :=
  ⟨((main_exit_codes noWindowEnv 5).1 rfl).1,
    ((main_exit_codes noGladEnv 5).2.1 rfl rfl).1,
    ((main_exit_codes sampleEnv 5).2.2.1 rfl rfl).2.1 3 (by decide) (by decide),
    by decide⟩

/-! ## Shutdown -/

/-- Claim C3, as the code behaves.  The number of `glfwTerminate` calls per
exit path: exactly one, as the last call, when window creation fails; exactly
one, as the last call, when the render loop ends and `main` returns 0; but none
at all when `gladLoadGLLoader` fails, where `main` returns -1 right after the
diagnostic. -/
theorem glfwTerminate_per_exit_path (env : Env) (fuel : Nat) :
    (env.windowCreated = false →
      (main env fuel).trace.countP Call.isTerminate = 1 ∧
      (main env fuel).trace.getLast? = some Call.glfwTerminate) ∧
    (env.windowCreated = true → env.gladLoaded = false →
      (main env fuel).exit = some (-1) ∧
      (main env fuel).trace.countP Call.isTerminate = 0) ∧
    (env.windowCreated = true → env.gladLoaded = true → (main env fuel).exit = some 0 →
      (main env fuel).trace.countP Call.isTerminate = 1 ∧
      (main env fuel).trace.getLast? = some Call.glfwTerminate) := by
  refine ⟨fun hw => ?_, fun hw hg => ?_, fun hw hg he => ?_⟩
  · rw [main_window_failure env fuel hw]
    refine ⟨?_, by simp⟩
    have h0 : (mainInit env).countP Call.isTerminate = 0 := by
      rw [List.countP_eq_zero]
      intro a ha
      have := (setup_no_loop_or_cleanup_call env a (by simp [ha])).2.2.2.1
      simp [this]
    simp [List.countP_cons, Call.isTerminate, h0]
  · rw [main_glad_failure env fuel hw hg]
    refine ⟨rfl, ?_⟩
    rw [List.countP_eq_zero]
    intro a ha
    simp only [List.mem_append, List.mem_singleton] at ha
    rcases ha with ha | ha
    · have := (setup_no_loop_or_cleanup_call env a (by
        simp only [List.mem_append]; exact Or.inl (Or.inl ha))).2.2.2.1
      simp [this]
    · subst ha
      simp [Call.isTerminate]
  · by_cases h : iterationsRun env fuel 0 < fuel
    · rw [main_ended env fuel hw hg h]
      refine ⟨?_, by simp [mainCleanup]⟩
      simp only [List.countP_append]
      rw [countP_setup_zero Call.isTerminate env
          (fun c hc => (setup_no_loop_or_cleanup_call env c hc).2.2.2.1),
        countP_loop_zero Call.isTerminate env (fun i c hc => (loop_no_cleanup_call env i c hc).1)]
      simp [mainCleanup, List.countP_cons, Call.isTerminate]
    · rw [main_running env fuel hw hg h] at he
      simp at he

/-- Witness for `glfwTerminate_per_exit_path`: at the sample run in which
`gladLoadGLLoader` fails, `main` returns -1 without any `glfwTerminate` call;
at the sample runs of the two other exit paths there is exactly one. -/
theorem glfwTerminate_per_exit_path_witness :
    (main noWindowEnv 5).trace.countP Call.isTerminate = 1 ∧
      ((main noGladEnv 5).exit = some (-1) ∧
        (main noGladEnv 5).trace.countP Call.isTerminate = 0) ∧
      (main sampleEnv 5).trace.countP Call.isTerminate = 1 :=
  ⟨((glfwTerminate_per_exit_path noWindowEnv 5).1 rfl).1,
    (glfwTerminate_per_exit_path noGladEnv 5).2.1 rfl rfl,
    ((glfwTerminate_per_exit_path sampleEnv 5).2.2 rfl rfl (by decide)).1⟩

/-- Claim C4.  When the window is created, the loader succeeds and the
should-close flag is set at one of the loop tests the fuel allows, `main`
returns 0 and its trace ends with `glDeleteVertexArrays(1, &VAO)`,
`glDeleteBuffers(1, &VBO)`, `glDeleteProgram(shaderProgram)`, `glfwTerminate`,
in this order, right after the loop test that ended the loop; nothing before
that deletes a vertex array, a buffer or a program, so each of the three is
deleted exactly once, after the last iteration, and no call follows its
deletion except the remaining deletions and `glfwTerminate`.  When the flag is
already set at the first test, no frame is drawn. -/
theorem cleanup_exactly_once (env : Env) (fuel n : Nat) (hw : env.windowCreated = true)
    (hg : env.gladLoaded = true) (hn : n < fuel) (hc : closeFlagAt env n = true) :
    (main env fuel).exit = some 0 ∧
    (∃ pre, (main env fuel).trace =
        pre ++ [ Call.glDeleteVertexArrays 1 env.VAO, Call.glDeleteBuffers 1 env.VBO,
                 Call.glDeleteProgram env.shaderProgram, Call.glfwTerminate ] ∧
      pre.getLast? = some Call.glfwWindowShouldClose ∧
      ∀ c ∈ pre, c.isDeleteVertexArrays = false ∧ c.isDeleteBuffers = false ∧
        c.isDeleteProgram = false ∧ c.isTerminate = false) ∧
    (main env fuel).trace.countP Call.isDeleteVertexArrays = 1 ∧
    (main env fuel).trace.countP Call.isDeleteBuffers = 1 ∧
    (main env fuel).trace.countP Call.isDeleteProgram = 1 ∧
    (env.closeAtStart = true →
      (main env fuel).trace.countP Call.isDraw = 0 ∧
      (main env fuel).trace.countP Call.isSwap = 0 ∧
      (main env fuel).trace.countP Call.isLoopTest = 1) := by
  have h := iterationsRun_of_close env fuel 0 n (by simpa using hc) hn
  have hpre : ∀ c ∈ mainInit env ++ mainContext ++ mainShaders env ++ mainBuffers env ++
      ((List.range (iterationsRun env fuel 0)).flatMap (fun i => iterationCalls env i) ++
        [Call.glfwWindowShouldClose]),
      c.isDeleteVertexArrays = false ∧ c.isDeleteBuffers = false ∧
        c.isDeleteProgram = false ∧ c.isTerminate = false := by
    intro c hc
    rcases List.mem_append.1 hc with hc | hc
    · have := setup_no_loop_or_cleanup_call env c hc
      exact ⟨this.2.2.2.2.1, this.2.2.2.2.2.1, this.2.2.2.2.2.2, this.2.2.2.1⟩
    · rcases List.mem_append.1 hc with hc | hc
      · obtain ⟨i, _, hi⟩ := List.mem_flatMap.1 hc
        have := loop_no_cleanup_call env i c hi
        exact ⟨this.2.1, this.2.2.1, this.2.2.2.1, this.1⟩
      · rw [List.mem_singleton] at hc
        subst hc
        exact ⟨rfl, rfl, rfl, rfl⟩
  have hcount : ∀ p : Call → Bool,
      (∀ c ∈ mainInit env ++ mainContext ++ mainShaders env ++ mainBuffers env ++
        ((List.range (iterationsRun env fuel 0)).flatMap (fun i => iterationCalls env i) ++
          [Call.glfwWindowShouldClose]), p c = false) →
      (mainInit env ++ mainContext ++ mainShaders env ++ mainBuffers env ++
        ((List.range (iterationsRun env fuel 0)).flatMap (fun i => iterationCalls env i) ++
          [Call.glfwWindowShouldClose]) ++ mainCleanup env).countP p =
        (mainCleanup env).countP p := by
    intro p hp
    rw [List.countP_append, List.countP_eq_zero.2 (fun a ha => by simp [hp a ha]), Nat.zero_add]
  rw [main_ended env fuel hw hg h]
  refine ⟨rfl, ⟨_, rfl, by simp, hpre⟩, ?_, ?_, ?_, ?_⟩
  · rw [hcount _ (fun c hc => (hpre c hc).1)]
    simp [mainCleanup, List.countP_cons, Call.isDeleteVertexArrays]
  · rw [hcount _ (fun c hc => (hpre c hc).2.1)]
    simp [mainCleanup, List.countP_cons, Call.isDeleteBuffers]
  · rw [hcount _ (fun c hc => (hpre c hc).2.2.1)]
    simp [mainCleanup, List.countP_cons, Call.isDeleteProgram]
  · intro hs
    have h0 : iterationsRun env fuel 0 = 0 := by
      cases fuel with
      | zero => rfl
      | succ f => simp [iterationsRun, closeFlagAt, hs]
    simp only [h0, List.range_zero, List.flatMap_nil, List.nil_append, List.countP_append]
    rw [countP_setup_zero Call.isDraw env
        (fun c hc => (setup_no_loop_or_cleanup_call env c hc).1),
      countP_setup_zero Call.isSwap env
        (fun c hc => (setup_no_loop_or_cleanup_call env c hc).2.1),
      countP_setup_zero Call.isLoopTest env
        (fun c hc => (setup_no_loop_or_cleanup_call env c hc).2.2.1)]
    simp [mainCleanup, List.countP_cons, Call.isDraw, Call.isSwap, Call.isLoopTest]

/-- Witness for `cleanup_exactly_once`: the sample run that closes at once. -/
theorem cleanup_exactly_once_witness :
    (main closedAtStartEnv 1).exit = some 0 ∧
      (main closedAtStartEnv 1).trace.countP Call.isDeleteVertexArrays = 1 ∧
      (main closedAtStartEnv 1).trace.countP Call.isDeleteBuffers = 1 ∧
      (main closedAtStartEnv 1).trace.countP Call.isDeleteProgram = 1 ∧
      (main closedAtStartEnv 1).trace.countP Call.isDraw = 0 :=
  have h := cleanup_exactly_once closedAtStartEnv 1 0 rfl rfl (by decide) rfl
  ⟨h.1, h.2.2.1, h.2.2.2.1, h.2.2.2.2.1, (h.2.2.2.2.2 rfl).1⟩

/-! ## The render loop -/

/-- Claim C8.  When the window is created and the loader succeeds, the trace of
`main` is the setup, then `n` iterations, then (once the loop has ended) the
final loop test and the cleanup, where `n` is the number of loop tests that
found the should-close flag unset.  Every iteration is the loop test, the calls
of `processInput`, then `glClearColor(1.0, 0.5, 0.0, 1.0)`,
`glClear(GL_COLOR_BUFFER_BIT)`, `glUseProgram(shaderProgram)`,
`glBindVertexArray(VAO)`, `glDrawArrays(GL_TRIANGLES, 0, 6)`, `glfwSwapBuffers`,
`glfwPollEvents` (with the callbacks GLFW runs inside it), whatever key
`processInput` saw.  The numbers of draw calls and of buffer swaps both equal
`n`. -/
theorem render_loop_iterations (env : Env) (fuel : Nat) (hw : env.windowCreated = true)
    (hg : env.gladLoaded = true) :
    ∃ n, n ≤ fuel ∧ (∀ m, m < n → closeFlagAt env m = false) ∧
      (n < fuel → closeFlagAt env n = true) ∧
      ((main env fuel).exit = some 0 ↔ n < fuel) ∧
      (main env fuel).trace =
        mainInit env ++ mainContext ++ mainShaders env ++ mainBuffers env ++
          (List.range n).flatMap (fun i =>
            Call.glfwWindowShouldClose ::
              ((processInput (env.frames i).key false).1 ++
                [ Call.glClearColor 1.0 0.5 0.0 1.0,
                  Call.glClear ClearMask.GL_COLOR_BUFFER_BIT,
                  Call.glUseProgram env.shaderProgram,
                  Call.glBindVertexArray env.VAO,
                  Call.glDrawArrays DrawMode.GL_TRIANGLES 0 6,
                  Call.glfwSwapBuffers ] ++
                Call.glfwPollEvents ::
                  (env.frames i).resizes.flatMap
                    (fun wh => framebuffer_size_callback wh.1 wh.2))) ++
          (if n < fuel then Call.glfwWindowShouldClose :: mainCleanup env else []) ∧
      (main env fuel).trace.countP Call.isDraw = n ∧
      (main env fuel).trace.countP Call.isSwap = n ∧
      (main env fuel).trace.countP Call.isLoopTest = (if n < fuel then n + 1 else n) := by
  refine ⟨iterationsRun env fuel 0, iterationsRun_le env fuel 0, ?_, ?_, ?_⟩
  · intro m hm
    simpa using closeFlagAt_before env fuel 0 m hm
  · intro h
    simpa using closeFlagAt_after env fuel 0 h
  have hd := countP_flatMap_range Call.isDraw (fun i => iterationCalls env i) 1
    (countP_isDraw_iterationCalls env) (iterationsRun env fuel 0)
  have hs := countP_flatMap_range Call.isSwap (fun i => iterationCalls env i) 1
    (countP_isSwap_iterationCalls env) (iterationsRun env fuel 0)
  have ht := countP_flatMap_range Call.isLoopTest (fun i => iterationCalls env i) 1
    (countP_isLoopTest_iterationCalls env) (iterationsRun env fuel 0)
  have zd := countP_setup_zero Call.isDraw env
    (fun c hc => (setup_no_loop_or_cleanup_call env c hc).1)
  have zs := countP_setup_zero Call.isSwap env
    (fun c hc => (setup_no_loop_or_cleanup_call env c hc).2.1)
  have zt := countP_setup_zero Call.isLoopTest env
    (fun c hc => (setup_no_loop_or_cleanup_call env c hc).2.2.1)
  by_cases h : iterationsRun env fuel 0 < fuel
  · rw [main_ended env fuel hw hg h]
    refine ⟨by simp [h], ?_, ?_, ?_, ?_⟩
    · simp [h, iterationCalls, glfwPollEvents]
    · simp only [List.countP_append]
      rw [zd, hd]
      simp [mainCleanup, List.countP_cons, Call.isDraw]
    · simp only [List.countP_append]
      rw [zs, hs]
      simp [mainCleanup, List.countP_cons, Call.isSwap]
    · simp only [List.countP_append]
      rw [zt, ht]
      simp [mainCleanup, List.countP_cons, Call.isLoopTest, h]
  · rw [main_running env fuel hw hg h]
    refine ⟨by simp [h], ?_, ?_, ?_, ?_⟩
    · simp [h, iterationCalls, glfwPollEvents]
    · simp only [List.countP_append]
      rw [zd, hd]
      simp
    · simp only [List.countP_append]
      rw [zs, hs]
      simp
    · simp only [List.countP_append]
      rw [zt, ht]
      simp [h]

/-- Witness for `render_loop_iterations`: the sample run, in which the exit key
is pressed in iteration 2, draws and presents three frames. -/
theorem render_loop_iterations_witness :
    (main sampleEnv 5).trace.countP Call.isDraw = 3 ∧
      (main sampleEnv 5).trace.countP Call.isSwap = 3 := by
  obtain ⟨n, _, h2, h3, _, _, h6, h7, _⟩ := render_loop_iterations sampleEnv 5 rfl rfl
  have hn : n = 3 := by
    rcases Nat.lt_trichotomy n 3 with h | h | h
    · have h5 := h3 (by omega)
      interval_cases n <;> exact absurd h5 (by decide)
    · exact h
    · exact absurd (h2 3 h) (by decide)
  subst hn
  exact ⟨h6, h7⟩

/-- Claim C5.  `processInput` sets the should-close flag when `glfwGetKey`
reports `GLFW_PRESS` for the exit key and leaves the flag as it is otherwise.
In the loop: if iteration `k` runs (the flag is unset at tests `0` to `k`), the
key is reported pressed in it and `glfwPollEvents` of that iteration does not
clear the flag, then the flag is set at test `k + 1`; so with fuel for that
test `main` returns 0 after exactly `k + 1` iterations: iteration `k` is the
last one. -/
theorem exit_key_ends_loop :
    (∀ close, processInput KeyAction.GLFW_PRESS close =
      ([Call.glfwGetKey Key.GLFW_KEY_Z, Call.glfwSetWindowShouldClose true], true)) ∧
    (∀ key close, key ≠ KeyAction.GLFW_PRESS →
      processInput key close = ([Call.glfwGetKey Key.GLFW_KEY_Z], close)) ∧
    (∀ (env : Env) (fuel k : Nat), env.windowCreated = true → env.gladLoaded = true →
      (∀ m, m ≤ k → closeFlagAt env m = false) →
      (env.frames k).key = KeyAction.GLFW_PRESS →
      (env.frames k).closeUpdate ≠ some false →
      k + 1 < fuel →
      closeFlagAt env (k + 1) = true ∧
      (main env fuel).exit = some 0 ∧
      (main env fuel).trace.countP Call.isSwap = k + 1 ∧
      (main env fuel).trace.countP Call.isLoopTest = k + 2) := by
  refine ⟨fun _ => rfl, fun key close hk => by simp [processInput, hk], ?_⟩
  intro env fuel k hw hg hbefore hkey hpoll hfuel
  have hnext : closeFlagAt env (k + 1) = true := by
    conv_lhs => unfold closeFlagAt
    rw [hkey]
    unfold glfwPollEvents processInput
    cases hu : (env.frames k).closeUpdate with
    | none => simp
    | some b =>
      cases b with
      | true => simp
      | false => exact absurd hu hpoll
  have hrun : iterationsRun env fuel 0 = k + 1 :=
    iterationsRun_eq env fuel (k + 1) hfuel (fun m hm => hbefore m (by omega)) hnext
  have hlt : iterationsRun env fuel 0 < fuel := by omega
  refine ⟨hnext, ?_, ?_, ?_⟩
  · rw [main_ended env fuel hw hg hlt]
  · rw [main_ended env fuel hw hg hlt]
    simp only [List.countP_append]
    rw [countP_setup_zero Call.isSwap env
        (fun c hc => (setup_no_loop_or_cleanup_call env c hc).2.1),
      countP_flatMap_range Call.isSwap (fun i => iterationCalls env i) 1
        (countP_isSwap_iterationCalls env), hrun]
    simp [mainCleanup, List.countP_cons, Call.isSwap]
  · rw [main_ended env fuel hw hg hlt]
    simp only [List.countP_append]
    rw [countP_setup_zero Call.isLoopTest env
        (fun c hc => (setup_no_loop_or_cleanup_call env c hc).2.2.1),
      countP_flatMap_range Call.isLoopTest (fun i => iterationCalls env i) 1
        (countP_isLoopTest_iterationCalls env), hrun]
    simp [mainCleanup, List.countP_cons, Call.isLoopTest]

/-- Witness for `exit_key_ends_loop`: in the sample run the exit key is pressed
in iteration 2, which is the third and last iteration. -/
theorem exit_key_ends_loop_witness :
    closeFlagAt sampleEnv 3 = true ∧ (main sampleEnv 5).exit = some 0 ∧
      (main sampleEnv 5).trace.countP Call.isSwap = 3 ∧
      (main sampleEnv 5).trace.countP Call.isLoopTest = 4 :=
  exit_key_ends_loop.2.2 sampleEnv 5 2 rfl rfl (by decide) rfl (by decide) (by decide)

/-! ## Vertex data -/

/-- Claim C6.  The array `vertices` is the 18-element sequence of the source, in
order: 6 vertices of 3 coordinates with every `z` equal to 0.  In every run in
which the window is created and the loader succeeds, `main` makes exactly one
`glBufferData` call, and it uploads this very sequence (the array is a constant
of the program: nothing writes to it), with size `18 * sizeof(float)`, which is
72 for 4-byte floats, and usage `GL_STATIC_DRAW`. -/
theorem vertices_uploaded (env : Env) (fuel : Nat) (hw : env.windowCreated = true)
    (hg : env.gladLoaded = true) :
    vertices = [0.3, -0.3, 0.0, 0.7, -0.3, 0.0, 0.10, 0.7, 0.0,
      -0.6, 0.0, 0.0, -0.3, 0.0, 0.0, -0.9, 0.7, 0.0] ∧
    vertices.length = 18 ∧
    (∀ i, i < 6 → vertexZ i = 0) ∧
    sizeofVertices env.sizeofFloat = 18 * env.sizeofFloat ∧
    sizeofVertices 4 = 72 ∧
    (main env fuel).trace.countP Call.isBufferData = 1 ∧
    ∀ c ∈ (main env fuel).trace, c.isBufferData = true →
      c = Call.glBufferData BufferTarget.GL_ARRAY_BUFFER (18 * env.sizeofFloat)
        [0.3, -0.3, 0.0, 0.7, -0.3, 0.0, 0.10, 0.7, 0.0,
          -0.6, 0.0, 0.0, -0.3, 0.0, 0.0, -0.9, 0.7, 0.0]
        BufferUsage.GL_STATIC_DRAW := by
  obtain ⟨rest, htrace, hrest⟩ := main_after_setup env fuel hw hg
  refine ⟨rfl, rfl, ?_, rfl, rfl, ?_, ?_⟩
  · intro i hi
    interval_cases i <;> norm_num [vertexZ, vertices]
  · have hr : rest.countP Call.isBufferData = 0 :=
      List.countP_eq_zero.2 (fun a ha => by simp [(hrest a ha).1])
    have hpre : (mainInit env ++ mainContext ++ mainShaders env).countP Call.isBufferData = 0 := by
      rw [List.countP_eq_zero]
      intro a ha
      have := preBuffers_all Call.isBufferData env
        (fun a b c d => by cases a <;> cases b <;> cases c <;> cases d <;> rfl) a ha
      simp [this]
    rw [htrace, List.countP_append, hr, List.countP_append, hpre]
    simp [mainBuffers, List.countP_cons, Call.isBufferData]
  · intro c hc hb
    rw [htrace] at hc
    rcases List.mem_append.1 hc with hc | hc
    · exact (setup_upload_and_layout env c hc).1 hb
    · rw [(hrest c hc).1] at hb
      exact absurd hb (by simp)

/-- Witness for `vertices_uploaded`: the sample run uploads 72 bytes once. -/
theorem vertices_uploaded_witness :
    sizeofVertices sampleEnv.sizeofFloat = 18 * sampleEnv.sizeofFloat ∧
      (main sampleEnv 5).trace.countP Call.isBufferData = 1 :=
  ⟨(vertices_uploaded sampleEnv 5 rfl rfl).2.2.2.1,
    (vertices_uploaded sampleEnv 5 rfl rfl).2.2.2.2.2.1⟩

/-! ## The resize callback -/

/-- Claim C7.  `framebuffer_size_callback` makes exactly one call,
`glViewport(0, 0, width, height)`, for every width and height; and in every run
in which the window is created, `main` registers this callback with
`glfwSetFramebufferSizeCallback` before the loop condition is tested for the
first time. -/
theorem framebuffer_size_callback_viewport :
    (∀ width height : Int,
      framebuffer_size_callback width height = [Call.glViewport 0 0 width height]) ∧
    (∀ (env : Env) (fuel : Nat), env.windowCreated = true →
      ∃ before after, (main env fuel).trace =
          before ++
            Call.glfwSetFramebufferSizeCallback Callback.framebuffer_size_callback :: after ∧
        ∀ c ∈ before, c.isLoopTest = false) := by
  refine ⟨fun _ _ => rfl, ?_⟩
  intro env fuel hw
  have hbefore : ∀ c ∈ mainInit env ++ [Call.glfwMakeContextCurrent], c.isLoopTest = false := by
    intro c hc
    refine (setup_no_loop_or_cleanup_call env c ?_).2.2.1
    simp only [List.mem_append, List.mem_singleton] at hc
    simp only [List.mem_append, mainContext, List.mem_cons]
    rcases hc with hc | hc
    · exact Or.inl (Or.inl (Or.inl hc))
    · exact Or.inl (Or.inl (Or.inr (Or.inl hc)))
  cases hg : env.gladLoaded with
  | false =>
    refine ⟨mainInit env ++ [Call.glfwMakeContextCurrent],
      [Call.gladLoadGLLoader, Call.cout ["Failed to initialize GLAD", "\n"]], ?_, hbefore⟩
    rw [main_glad_failure env fuel hw hg]
    simp only [mainContext, List.append_assoc, List.cons_append, List.nil_append,
      List.singleton_append]
  | true =>
    obtain ⟨rest, htrace, _⟩ := main_after_setup env fuel hw hg
    refine ⟨mainInit env ++ [Call.glfwMakeContextCurrent],
      Call.gladLoadGLLoader :: (mainShaders env ++ (mainBuffers env ++ rest)), ?_, hbefore⟩
    rw [htrace]
    simp only [mainContext, List.append_assoc, List.cons_append, List.nil_append,
      List.singleton_append]

/-- Witness for `framebuffer_size_callback_viewport`: the sample run registers
the callback, and a resize to 1024 by 768 sets the viewport to that size. -/
theorem framebuffer_size_callback_viewport_witness :
    framebuffer_size_callback 1024 768 = [Call.glViewport 0 0 1024 768] ∧
      Call.glfwSetFramebufferSizeCallback Callback.framebuffer_size_callback ∈
        (main sampleEnv 5).trace := by
  refine ⟨framebuffer_size_callback_viewport.1 1024 768, ?_⟩
  obtain ⟨before, after, h, _⟩ := framebuffer_size_callback_viewport.2 sampleEnv 5 rfl
  rw [h]
  simp

/-! ## Vertex layout -/

/-- Claim C9.  In every run in which the window is created and the loader
succeeds, the only layout call is
`glVertexAttribPointer(0, 3, GL_FLOAT, GL_FALSE, 3 * sizeof(float), 0)`, the
attribute 0 is enabled, the only upload is that of `vertices` with
`sizeof(vertices)` bytes, and every draw call is
`glDrawArrays(GL_TRIANGLES, 0, 6)`.  With that layout vertex `i` of the drawn
range `0..5` reads the bytes `[i * stride, i * stride + 3 * sizeof(float))`,
which end within the uploaded `sizeof(vertices)` bytes; `6 * stride` equals
`sizeof(vertices)`, and every uploaded byte is read by one of the six
vertices. -/
theorem vertex_layout_consumes_upload (env : Env) (fuel : Nat)
    (hw : env.windowCreated = true) (hg : env.gladLoaded = true) :
    Call.glVertexAttribPointer 0 3 DataType.GL_FLOAT false (3 * env.sizeofFloat) 0 ∈
      (main env fuel).trace ∧
    Call.glEnableVertexAttribArray 0 ∈ (main env fuel).trace ∧
    (∀ c ∈ (main env fuel).trace, c.isVertexAttribPointer = true →
      c = Call.glVertexAttribPointer 0 3 DataType.GL_FLOAT false (3 * env.sizeofFloat) 0) ∧
    (∀ c ∈ (main env fuel).trace, c.isBufferData = true →
      c = Call.glBufferData BufferTarget.GL_ARRAY_BUFFER (sizeofVertices env.sizeofFloat)
        vertices BufferUsage.GL_STATIC_DRAW) ∧
    (∀ c ∈ (main env fuel).trace, c.isDraw = true →
      c = Call.glDrawArrays DrawMode.GL_TRIANGLES 0 6) ∧
    (∀ i, i < 6 →
      attribBytes 3 env.sizeofFloat (3 * env.sizeofFloat) 0 i =
        (i * (3 * env.sizeofFloat), i * (3 * env.sizeofFloat) + 3 * env.sizeofFloat) ∧
      (attribBytes 3 env.sizeofFloat (3 * env.sizeofFloat) 0 i).2 ≤
        sizeofVertices env.sizeofFloat) ∧
    6 * (3 * env.sizeofFloat) = sizeofVertices env.sizeofFloat ∧
    (∀ b, b < sizeofVertices env.sizeofFloat →
      ∃ i, i < 6 ∧ (attribBytes 3 env.sizeofFloat (3 * env.sizeofFloat) 0 i).1 ≤ b ∧
        b < (attribBytes 3 env.sizeofFloat (3 * env.sizeofFloat) 0 i).2) := by
  obtain ⟨rest, htrace, hrest⟩ := main_after_setup env fuel hw hg
  have hsize : sizeofVertices env.sizeofFloat = 18 * env.sizeofFloat := rfl
  refine ⟨?_, ?_, ?_, ?_, ?_, ?_, ?_, ?_⟩
  · rw [htrace]
    simp [mainBuffers]
  · rw [htrace]
    simp [mainBuffers]
  · intro c hc hb
    rw [htrace] at hc
    rcases List.mem_append.1 hc with hc | hc
    · exact (setup_upload_and_layout env c hc).2 hb
    · rw [(hrest c hc).2.1] at hb
      exact absurd hb (by simp)
  · intro c hc hb
    rw [htrace] at hc
    rcases List.mem_append.1 hc with hc | hc
    · exact (setup_upload_and_layout env c hc).1 hb
    · rw [(hrest c hc).1] at hb
      exact absurd hb (by simp)
  · intro c hc hb
    rw [htrace] at hc
    rcases List.mem_append.1 hc with hc | hc
    · rw [(setup_no_loop_or_cleanup_call env c hc).1] at hb
      exact absurd hb (by simp)
    · exact (hrest c hc).2.2.2 hb
  · intro i hi
    rw [hsize]
    simp only [attribBytes, Nat.zero_add, true_and]
    have : i * (3 * env.sizeofFloat) = 3 * (i * env.sizeofFloat) := by ring
    have : i * env.sizeofFloat ≤ 5 * env.sizeofFloat := Nat.mul_le_mul_right _ (by omega)
    omega
  · rw [hsize]
    omega
  · intro b hb
    rw [hsize] at hb
    have hpos : 0 < 3 * env.sizeofFloat := by omega
    refine ⟨b / (3 * env.sizeofFloat), ?_, ?_, ?_⟩
    · rw [Nat.div_lt_iff_lt_mul hpos]
      omega
    · simp only [attribBytes, Nat.zero_add]
      exact Nat.div_mul_le_self b _
    · simp only [attribBytes, Nat.zero_add]
      have h1 := Nat.div_add_mod b (3 * env.sizeofFloat)
      have h2 := Nat.mod_lt b hpos
      have h3 : b / (3 * env.sizeofFloat) * (3 * env.sizeofFloat) =
          3 * env.sizeofFloat * (b / (3 * env.sizeofFloat)) := Nat.mul_comm _ _
      omega

/-- Witness for `vertex_layout_consumes_upload`: with 4-byte floats the stride
is 12, the upload is 72 bytes and the last vertex reads the bytes 60 to 71. -/
theorem vertex_layout_consumes_upload_witness :
    6 * (3 * sampleEnv.sizeofFloat) = sizeofVertices sampleEnv.sizeofFloat ∧
      attribBytes 3 sampleEnv.sizeofFloat (3 * sampleEnv.sizeofFloat) 0 5 =
        (5 * (3 * sampleEnv.sizeofFloat),
          5 * (3 * sampleEnv.sizeofFloat) + 3 * sampleEnv.sizeofFloat) :=
  have h := vertex_layout_consumes_upload sampleEnv 5 rfl rfl
  ⟨h.2.2.2.2.2.2.1, (h.2.2.2.2.2.1 5 (by decide)).1⟩

/-! ## Geometry of the two triangles -/

/-- Claim C10.  Reading the literals as exact decimals, the first triangle has
the vertices (0.3, -0.3), (0.7, -0.3), (0.10, 0.7) and the second (-0.6, 0),
(-0.3, 0), (-0.9, 0.7).  Each has non-zero area, the edge vectors at its first
vertex have a strictly negative dot product, and those at its two other
vertices have a strictly positive one: each triangle is obtuse, with exactly
one obtuse angle. -/
theorem triangles_obtuse :
    vertexXY 0 = (0.3, -0.3) ∧ vertexXY 1 = (0.7, -0.3) ∧ vertexXY 2 = (0.10, 0.7) ∧
    vertexXY 3 = (-0.6, 0) ∧ vertexXY 4 = (-0.3, 0) ∧ vertexXY 5 = (-0.9, 0.7) ∧
    doubleArea (vertexXY 0) (vertexXY 1) (vertexXY 2) ≠ 0 ∧
    edgeDot (vertexXY 0) (vertexXY 1) (vertexXY 2) < 0 ∧
    0 < edgeDot (vertexXY 1) (vertexXY 0) (vertexXY 2) ∧
    0 < edgeDot (vertexXY 2) (vertexXY 0) (vertexXY 1) ∧
    doubleArea (vertexXY 3) (vertexXY 4) (vertexXY 5) ≠ 0 ∧
    edgeDot (vertexXY 3) (vertexXY 4) (vertexXY 5) < 0 ∧
    0 < edgeDot (vertexXY 4) (vertexXY 3) (vertexXY 5) ∧
    0 < edgeDot (vertexXY 5) (vertexXY 3) (vertexXY 4) := by
  refine ⟨?_, ?_, ?_, ?_, ?_, ?_, ?_, ?_, ?_, ?_, ?_, ?_, ?_, ?_⟩ <;>
    norm_num [vertexXY, vertices, doubleArea, edgeDot]

/-! ## Shader failures -/

/-- Claim C2.  Let the window be created and the loader succeed, and let the
three statuses (vertex compile, fragment compile, link) take any values `v`,
`f`, `l`.  The run has the same exit code as the run in which all three
succeed, which is 0 as soon as the loop ends.  Its trace is the trace of the
all-success run, which contains no call of a diagnostic block, with one
diagnostic block (the retrieval of the info log and the `std::cout` statement
with the matching error header) inserted right after the status query of each
status that is false, and nothing inserted for a status that is true; every
other call is the same, in the same order. -/
theorem shader_failures_nonfatal (env : Env) (v f l : Bool) (fuel : Nat)
    (hw : env.windowCreated = true) (hg : env.gladLoaded = true) :
    (main (env.withStatuses v f l) fuel).exit =
      (main (env.withStatuses true true true) fuel).exit ∧
    (∀ n, n < fuel → closeFlagAt env n = true →
      (main (env.withStatuses v f l) fuel).exit = some 0) ∧
    (∀ x ∈ (main (env.withStatuses true true true) fuel).trace, x.inDiagnosticBlock = false) ∧
    (main (env.withStatuses v f l) fuel).trace.filter (fun x => !x.inDiagnosticBlock) =
      (main (env.withStatuses true true true) fuel).trace ∧
    (main (env.withStatuses v f l) fuel).trace.filter Call.inDiagnosticBlock =
      (if v then [] else
        [ Call.glGetShaderInfoLog env.vertexShader 512,
          Call.cout ["ERROR::SHADER::VERTEX::COMPILATION_FAILED\n", env.vertexLog, "\n"] ]) ++
      (if f then [] else
        [ Call.glGetShaderInfoLog env.fragmentShader 512,
          Call.cout ["ERROR::SHADER::FRAGMENT::COMPILATION_FAILED\n", env.fragmentLog, "\n"] ]) ++
      (if l then [] else
        [ Call.glGetProgramInfoLog env.shaderProgram 512,
          Call.cout ["ERROR::SHADER::PROGRAM::LINKING_FAILED\n", env.programLog, "\n"] ]) ∧
    ∃ a b c d,
      a.getLast? = some (Call.glGetShaderiv env.vertexShader StatusName.GL_COMPILE_STATUS) ∧
      b.getLast? = some (Call.glGetShaderiv env.fragmentShader StatusName.GL_COMPILE_STATUS) ∧
      c.getLast? = some (Call.glGetProgramiv env.shaderProgram StatusName.GL_LINK_STATUS) ∧
      (main (env.withStatuses true true true) fuel).trace = a ++ b ++ c ++ d ∧
      (main (env.withStatuses v f l) fuel).trace =
        a ++
        (if v then [] else
          [ Call.glGetShaderInfoLog env.vertexShader 512,
            Call.cout ["ERROR::SHADER::VERTEX::COMPILATION_FAILED\n", env.vertexLog, "\n"] ]) ++
        b ++
        (if f then [] else
          [ Call.glGetShaderInfoLog env.fragmentShader 512,
            Call.cout ["ERROR::SHADER::FRAGMENT::COMPILATION_FAILED\n", env.fragmentLog,
              "\n"] ]) ++
        c ++
        (if l then [] else
          [ Call.glGetProgramInfoLog env.shaderProgram 512,
            Call.cout ["ERROR::SHADER::PROGRAM::LINKING_FAILED\n", env.programLog, "\n"] ]) ++
        d := by
  obtain ⟨hrun, hexit⟩ := main_withStatuses env v f l fuel hw hg
  obtain ⟨hok, hokexit⟩ := main_withStatuses env true true true fuel hw hg
  have hnodiag : ∀ x ∈ (main (env.withStatuses true true true) fuel).trace,
      x.inDiagnosticBlock = false := by
    intro x hx
    rw [hok] at hx
    rcases List.mem_append.1 hx with hx | hx
    · exact setup_ok_no_diagnostic env x hx
    · exact loopAndCleanup_no_diagnostic env fuel x hx
  have hdecomp : ∀ v f l : Bool, (main (env.withStatuses v f l) fuel).trace =
      (mainInit env ++ mainContext ++
        [ Call.glCreateShader ShaderType.GL_VERTEX_SHADER,
          Call.glShaderSource env.vertexShader 1 vertexShaderSource,
          Call.glCompileShader env.vertexShader,
          Call.glGetShaderiv env.vertexShader StatusName.GL_COMPILE_STATUS ]) ++
      (if v then [] else
        [ Call.glGetShaderInfoLog env.vertexShader 512,
          Call.cout ["ERROR::SHADER::VERTEX::COMPILATION_FAILED\n", env.vertexLog, "\n"] ]) ++
      [ Call.glCreateShader ShaderType.GL_FRAGMENT_SHADER,
        Call.glShaderSource env.fragmentShader 1 fragmentShaderSource,
        Call.glCompileShader env.fragmentShader,
        Call.glGetShaderiv env.fragmentShader StatusName.GL_COMPILE_STATUS ] ++
      (if f then [] else
        [ Call.glGetShaderInfoLog env.fragmentShader 512,
          Call.cout ["ERROR::SHADER::FRAGMENT::COMPILATION_FAILED\n", env.fragmentLog, "\n"] ]) ++
      [ Call.glCreateProgram,
        Call.glAttachShader env.shaderProgram env.vertexShader,
        Call.glAttachShader env.shaderProgram env.fragmentShader,
        Call.glLinkProgram env.shaderProgram,
        Call.glGetProgramiv env.shaderProgram StatusName.GL_LINK_STATUS ] ++
      (if l then [] else
        [ Call.glGetProgramInfoLog env.shaderProgram 512,
          Call.cout ["ERROR::SHADER::PROGRAM::LINKING_FAILED\n", env.programLog, "\n"] ]) ++
      ([ Call.glDeleteShader env.vertexShader,
         Call.glDeleteShader env.fragmentShader ] ++ mainBuffers env ++
        loopAndCleanup env fuel) := by
    intro v f l
    rw [(main_withStatuses env v f l fuel hw hg).1, mainShaders_withStatuses]
    simp only [List.append_assoc]
  have hokdecomp := hdecomp true true true
  simp only [if_true, List.append_nil] at hokdecomp
  have hparts : ∀ x,
      (x ∈ mainInit env ++ mainContext ++
        [ Call.glCreateShader ShaderType.GL_VERTEX_SHADER,
          Call.glShaderSource env.vertexShader 1 vertexShaderSource,
          Call.glCompileShader env.vertexShader,
          Call.glGetShaderiv env.vertexShader StatusName.GL_COMPILE_STATUS ] ∨
       x ∈ [ Call.glCreateShader ShaderType.GL_FRAGMENT_SHADER,
          Call.glShaderSource env.fragmentShader 1 fragmentShaderSource,
          Call.glCompileShader env.fragmentShader,
          Call.glGetShaderiv env.fragmentShader StatusName.GL_COMPILE_STATUS ] ∨
       x ∈ [ Call.glCreateProgram,
          Call.glAttachShader env.shaderProgram env.vertexShader,
          Call.glAttachShader env.shaderProgram env.fragmentShader,
          Call.glLinkProgram env.shaderProgram,
          Call.glGetProgramiv env.shaderProgram StatusName.GL_LINK_STATUS ] ∨
       x ∈ [ Call.glDeleteShader env.vertexShader,
          Call.glDeleteShader env.fragmentShader ] ++ mainBuffers env ++
          loopAndCleanup env fuel) → x.inDiagnosticBlock = false := by
    intro x hx
    apply hnodiag x
    rw [hokdecomp]
    rcases hx with hx | hx | hx | hx
    · exact List.mem_append_left _ (List.mem_append_left _ (List.mem_append_left _ hx))
    · exact List.mem_append_left _ (List.mem_append_left _ (List.mem_append_right _ hx))
    · exact List.mem_append_left _ (List.mem_append_right _ hx)
    · exact List.mem_append_right _ hx
  have keep : ∀ xs : List Call, (∀ x ∈ xs, x.inDiagnosticBlock = false) →
      xs.filter (fun x => !x.inDiagnosticBlock) = xs ∧ xs.filter Call.inDiagnosticBlock = [] := by
    intro xs h
    exact ⟨List.filter_eq_self.2 (fun x hx => by simp [h x hx]),
      List.filter_eq_nil_iff.2 (fun x hx => by simp [h x hx])⟩
  have hv : ∀ (b : Bool) (sh : Nat) (header log : String),
      (header = "ERROR::SHADER::VERTEX::COMPILATION_FAILED\n" ∨
        header = "ERROR::SHADER::FRAGMENT::COMPILATION_FAILED\n") →
      (if b then [] else [Call.glGetShaderInfoLog sh 512, Call.cout [header, log, "\n"]]).filter
          (fun x => !x.inDiagnosticBlock) = [] ∧
      (if b then [] else [Call.glGetShaderInfoLog sh 512, Call.cout [header, log, "\n"]]).filter
          Call.inDiagnosticBlock =
        (if b then [] else [Call.glGetShaderInfoLog sh 512, Call.cout [header, log, "\n"]]) := by
    intro b sh header log hh
    cases b <;> rcases hh with rfl | rfl <;> simp [Call.inDiagnosticBlock]
  have hl : ∀ (b : Bool) (pr : Nat) (log : String),
      (if b then [] else [Call.glGetProgramInfoLog pr 512,
        Call.cout ["ERROR::SHADER::PROGRAM::LINKING_FAILED\n", log, "\n"]]).filter
          (fun x => !x.inDiagnosticBlock) = [] ∧
      (if b then [] else [Call.glGetProgramInfoLog pr 512,
        Call.cout ["ERROR::SHADER::PROGRAM::LINKING_FAILED\n", log, "\n"]]).filter
          Call.inDiagnosticBlock =
        (if b then [] else [Call.glGetProgramInfoLog pr 512,
          Call.cout ["ERROR::SHADER::PROGRAM::LINKING_FAILED\n", log, "\n"]]) := by
    intro b pr log
    cases b <;> simp [Call.inDiagnosticBlock]
  have ka := keep _ (fun x hx => hparts x (Or.inl hx))
  have kb := keep _ (fun x hx => hparts x (Or.inr (Or.inl hx)))
  have kc := keep _ (fun x hx => hparts x (Or.inr (Or.inr (Or.inl hx))))
  have kd := keep _ (fun x hx => hparts x (Or.inr (Or.inr (Or.inr hx))))
  refine ⟨by rw [hexit, hokexit], ?_, hnodiag, ?_, ?_, ⟨_, _, _, _, ?_, ?_, ?_, hokdecomp, hdecomp v f l⟩⟩
  · intro n hn hc
    rw [hexit, if_pos (iterationsRun_of_close env fuel 0 n (by simpa using hc) hn)]
  · rw [hdecomp v f l, hokdecomp, filter_append_seven]
    rw [ka.1, kb.1, kc.1, kd.1,
      (hv v env.vertexShader _ env.vertexLog (Or.inl rfl)).1,
      (hv f env.fragmentShader _ env.fragmentLog (Or.inr rfl)).1,
      (hl l env.shaderProgram env.programLog).1]
    simp only [List.append_nil]
  · rw [hdecomp v f l, filter_append_seven]
    rw [ka.2, kb.2, kc.2, kd.2,
      (hv v env.vertexShader _ env.vertexLog (Or.inl rfl)).2,
      (hv f env.fragmentShader _ env.fragmentLog (Or.inr rfl)).2,
      (hl l env.shaderProgram env.programLog).2]
    simp only [List.append_nil, List.nil_append]
  · simp
  · simp
  · simp

/-- Witness for `shader_failures_nonfatal`: a sample run in which the vertex
shader and the link fail returns 0 and prints the two diagnostics. -/
theorem shader_failures_nonfatal_witness :
    (main (brokenShaderEnv.withStatuses false true false) 5).exit = some 0 ∧
      (main (brokenShaderEnv.withStatuses false true false) 5).trace.filter
          Call.inDiagnosticBlock =
        [ Call.glGetShaderInfoLog 1 512,
          Call.cout ["ERROR::SHADER::VERTEX::COMPILATION_FAILED\n", "0:1: syntax error", "\n"],
          Call.glGetProgramInfoLog 3 512,
          Call.cout ["ERROR::SHADER::PROGRAM::LINKING_FAILED\n", "link error", "\n"] ] :=
  have h := shader_failures_nonfatal brokenShaderEnv false true false 5 rfl rfl
  ⟨h.2.1 3 (by decide) (by decide), h.2.2.2.2.1⟩

end Trivoodge
